import Mathlib

/-!
Verification of the datatool multi-backend path/transfer engine.

The definitions below are a shallow embedding of:
  * `src/datatool/tools/ssh_path.py` (SshPath, get_ssh_client),
  * `src/datatool/tools/file_transfer_manager.py` (FileTransferManager.transfer_file),
  * `src/datatool/tools/paths.py` (get_path_from_str),
  * `src/datatool/files/transfer_strategies.py` (the nine TransferStrategy classes),
and, where the repository ships only tests for a module
(`datatool/files/file_transfer_manager.py` is absent from the source tree),
a model reconstructed from the specification.

Remote filesystem state is modelled as a list of nodes (path string plus a
directory flag); SFTP stat is membership, SFTP mkdir fails on an existing
path, opening a file for binary write fails when a directory occupies the
path.  Python's `urllib.parse.urlparse` is modelled for `scheme://netloc/path`
shaped URLs (the only shape the code constructs), without IPv6 brackets,
query or fragment components.
-/

set_option autoImplicit false

namespace Datatool

/-! ## A model of `urllib.parse.urlparse` (scheme, netloc, path components) -/

/-- The components of a parsed URL that `SshPath.__init__` consumes. -/
structure UrlParts where
  scheme : String
  netloc : String
  pathPart : String
deriving DecidableEq, Repr

/-- Break a character list at the first occurrence of the (non-empty) run
`sep`, dropping the separator; `none` when `sep` does not occur. -/
def breakAtSub (sep : List Char) : List Char → Option (List Char × List Char)
  | [] => none
  | c :: rest =>
    if sep.isPrefixOf (c :: rest) then some ([], (c :: rest).drop sep.length)
    else
      match breakAtSub sep rest with
      | some (a, b) => some (c :: a, b)
      | none => none

/-- Split a character list at every occurrence of the character `c`
(the semantics of Python `str.split(c)` / `String.splitOn` for a one-character
separator: the empty list yields one empty field). -/
def splitOnChar (c : Char) : List Char → List (List Char)
  | [] => [[]]
  | a :: rest =>
    if a = c then [] :: splitOnChar c rest
    else
      match splitOnChar c rest with
      | h :: t => (a :: h) :: t
      | [] => [[a]]

/-- Split a string at the LAST occurrence of the character `c` (Python
`str.rpartition`), returning `none` when `c` does not occur. -/
def rpartAt (s : String) (c : Char) : Option (String × String) :=
  match (splitOnChar c s.toList).reverse with
  | [] => none
  | [_] => none
  | lastPart :: restRev =>
    some (String.intercalate (String.mk [c]) (restRev.reverse.map String.mk),
          String.mk lastPart)

/-- Whether `pat` begins `s` (Python `str.startswith`). -/
def strStartsWith (s pat : String) : Bool :=
  pat.toList.isPrefixOf s.toList

/-- Parse a run of decimal digits (Python `int(s, 10)` restricted to plain
digit runs); `none` when empty or containing a non-digit. -/
def digitsToNat? (l : List Char) : Option Nat :=
  if l = [] then none
  else
    l.foldl
      (fun acc c =>
        match acc with
        | none => none
        | some n => if c.isDigit then some (n * 10 + (c.toNat - 48)) else none)
      (some 0)

/-- Model of `urlparse` restricted to what the source reads: the scheme is the
(lower-cased) text before the first `"://"`, the netloc runs to the first `/`
after it, the path is the remainder.  A URL without `"://"` is treated as
scheme-less. -/
def parseUrl (url : String) : UrlParts :=
  match breakAtSub "://".toList url.toList with
  | none => ⟨"", "", url⟩
  | some (schemeChars, rest) =>
    let netlocChars := rest.takeWhile (fun c => c ≠ '/')
    ⟨String.mk (schemeChars.map Char.toLower), String.mk netlocChars,
     String.mk (rest.drop netlocChars.length)⟩

/-- The host-and-port part of the netloc: everything after the last `@`. -/
def hostinfoOf (u : UrlParts) : String :=
  match rpartAt u.netloc '@' with
  | some (_, h) => h
  | none => u.netloc

/-- `urlparse(...).hostname` (lower-cased host, text before the first `:`). -/
def urlHostname (u : UrlParts) : String :=
  String.mk (((hostinfoOf u).toList.takeWhile (fun c => c ≠ ':')).map Char.toLower)

/-- The raw port text of the netloc (text after the first `:` of the
host-and-port part); empty when no port is given. -/
def urlPortText (u : UrlParts) : String :=
  let hi := (hostinfoOf u).toList
  String.mk (hi.drop ((hi.takeWhile (fun c => c ≠ ':')).length + 1))

/-- `urlparse(...).port`: `none` when no port text is present; a `ValueError`
(modelled as `.error`) when the text is not a decimal number in `0..65535`. -/
def urlPort (u : UrlParts) : Except String (Option Nat) :=
  let pt := urlPortText u
  if pt = "" then .ok none
  else
    match digitsToNat? pt.toList with
    | some n => if n ≤ 65535 then .ok (some n) else .error "Port out of range 0-65535"
    | none => .error ("Port could not be cast to integer value as " ++ pt)

/-- `urlparse(...).username` fused with the source's `or None`: the text of the
user-info (before the last `@`) up to the first `:`, `none` when absent or
empty. -/
def urlUsername (u : UrlParts) : Option String :=
  match rpartAt u.netloc '@' with
  | none => none
  | some (userinfo, _) =>
    let uname := String.mk (userinfo.toList.takeWhile (fun c => c ≠ ':'))
    if uname = "" then none else some uname

/-! ## A model of `pathlib.PurePosixPath` parent/name -/

/-- The components of a POSIX path string: empty and `"."` segments are
dropped, as `PurePosixPath` normalizes them away. -/
def posixParts (s : String) : List String :=
  ((splitOnChar '/' s.toList).map String.mk).filter (fun c => c ≠ "" && c ≠ ".")

/-- `str(PurePosixPath(s).parent)`. -/
def posixParent (s : String) : String :=
  let rest := (posixParts s).dropLast
  if strStartsWith s "/" then "/" ++ String.intercalate "/" rest
  else if rest = [] then "." else String.intercalate "/" rest

/-- `PurePosixPath(s).name`: the final component, `""` for a root. -/
def posixName (s : String) : String :=
  ((posixParts s).getLast?).getD ""

/-! ## `SshPath` (src/datatool/tools/ssh_path.py) -/

/-- The value-level fields of an `SshPath` (the lazily created client and sftp
handles are modelled separately, with the session cache). -/
structure SshData where
  hostname : String
  port : Nat
  username : Option String
  path : String
  password : Option String
  privateKeyPath : Option String
deriving DecidableEq, Repr

/-- `SshPath.__init__(url, password, private_key_path)`: parses the URL,
rejects a non-`ssh` scheme and an empty hostname, defaults the port to 22
(`parsed_url.port or 22`, so an explicit port 0 also falls back to 22), and
stores the authentication material unchanged. -/
def sshPathInit (url : String) (password privateKeyPath : Option String) :
    Except String SshData :=
  let u := parseUrl url
  if u.scheme ≠ "ssh" then .error ("Invalid SSH URL scheme: " ++ u.scheme)
  else
    match urlPort u with
    | .error e => .error e
    | .ok portOpt =>
      let hostname := urlHostname u
      let port := match portOpt with
        | none => 22
        | some 0 => 22
        | some n => n
      let username := urlUsername u
      let path := u.pathPart
      if hostname = "" then .error "Hostname is required for SSH path"
      else .ok ⟨hostname, port, username, path, password, privateKeyPath⟩

/-- `SshPath.name`. -/
def sshName (d : SshData) : String :=
  posixName d.path

/-- The parent URL string built by `SshPath.parent`:
`f"ssh://{self.username or ''}@{self.hostname}:{self.port}{parent_path}"`. -/
def sshParentUrl (d : SshData) : String :=
  "ssh://" ++ (d.username.getD "") ++ "@" ++ d.hostname ++ ":" ++ toString d.port
    ++ posixParent d.path

/-- `SshPath.parent`: reconstructs the parent URL and re-parses it, passing the
password and private-key path through. -/
def sshParent (d : SshData) : Except String SshData :=
  sshPathInit (sshParentUrl d) d.password d.privateKeyPath

/-- `SshPath.__str__`: `ssh://[user@]host:port/path`; the user part is present
only when the username is truthy (non-empty). -/
def sshStr (d : SshData) : String :=
  let userPart := match d.username with
    | some u => if u = "" then "" else u ++ "@"
    | none => ""
  "ssh://" ++ userPart ++ d.hostname ++ ":" ++ toString d.port ++ d.path

/-- `SshPath.__repr__`: like `__str__` wrapped in `SshPath('...')`, plus a
`private_key_path='...'` part when a truthy key path is stored; the password is
never rendered. -/
def sshRepr (d : SshData) : String :=
  let userPart := match d.username with
    | some u => if u = "" then "" else u ++ "@"
    | none => ""
  let authInfo := match d.privateKeyPath with
    | some kp => if kp = "" then "" else ", private_key_path='" ++ kp ++ "'"
    | none => ""
  "SshPath('ssh://" ++ userPart ++ d.hostname ++ ":" ++ toString d.port ++ d.path
    ++ "'" ++ authInfo ++ ")"

/-! ## Remote filesystem model and `SshPath.mkdir` / `SshPath.write_bytes` -/

/-- One node of the remote filesystem: a path and whether it is a directory. -/
structure RNode where
  path : String
  isDir : Bool
deriving DecidableEq, Repr

/-- The remote filesystem as seen through SFTP: the list of existing nodes. -/
abbrev RFs := List RNode

/-- `sftp.stat` succeeding: some node (file or directory) occupies the path. -/
def rexists (fs : RFs) (p : String) : Bool :=
  fs.any (fun n => n.path = p)

/-- `sftp.mkdir`: fails when the path already exists, otherwise records a new
directory node. -/
def sftpMkdir (fs : RFs) (p : String) : Except String RFs :=
  if rexists fs p then .error "mkdir failure" else .ok (⟨p, true⟩ :: fs)

/-- Python `s.strip("/")`: drop leading and trailing `/` characters. -/
def stripSlashes (s : String) : String :=
  let l := s.toList.dropWhile (fun c => c = '/')
  String.mk ((l.reverse.dropWhile (fun c => c = '/')).reverse)

/-- The `mkdir -p` loop of `SshPath.mkdir(parents=True)`: walk the path
segments, skip empty ones, `stat` each growing path and create it only when
absent.  Returns the new filesystem and the list of paths actually created,
in creation order. -/
def mkdirLoop : RFs → List String → String → List String →
    Except String (RFs × List String)
  | fs, [], _, created => .ok (fs, created.reverse)
  | fs, part :: rest, current, created =>
    if part = "" then mkdirLoop fs rest current created
    else
      let cur := current ++ "/" ++ part
      if rexists fs cur then mkdirLoop fs rest cur created
      else
        match sftpMkdir fs cur with
        | .error e => .error e
        | .ok fs' => mkdirLoop fs' rest cur (cur :: created)

set_option linter.unusedVariables false in
/-- `SshPath.mkdir(parents, exist_ok)`: without `parents` a single remote
mkdir of the full path; with `parents` the prefix walk.  The `exist_ok`
argument is accepted but, exactly as in the source, never read. -/
def sshMkdir (fs : RFs) (path : String) (parents exist_ok : Bool) :
    Except String (RFs × List String) :=
  if !parents then (sftpMkdir fs path).map (fun fs' => (fs', [path]))
  else mkdirLoop fs ((splitOnChar '/' (stripSlashes path).toList).map String.mk) "" []

/-- `SshPath.write_bytes`: first `self.mkdir(parents=True, exist_ok=True)` on
the file's own path, then `sftp.open(self.path, "wb")`, which fails when a
directory occupies the path; content bytes are not tracked, only the node.
Returns the new filesystem and the directories created by the mkdir phase. -/
def sshWriteBytes (fs : RFs) (path : String) : Except String (RFs × List String) :=
  match sshMkdir fs path true true with
  | .error e => .error e
  | .ok (fs₁, created) =>
    if fs₁.any (fun n => n.path = path && n.isDir) then
      .error "open wb: path is a directory"
    else if rexists fs₁ path then .ok (fs₁, created)
    else .ok (⟨path, false⟩ :: fs₁, created)

/-! ## The session cache (`get_ssh_client`, `SshPath.client`) -/

/-- The `lru_cache` key of `get_ssh_client`. -/
structure ConnKey where
  hostname : String
  port : Nat
  username : Option String
  password : Option String
  keyFilename : Option String
deriving DecidableEq, Repr

/-- The process-wide client cache: connection tuple to client identifier.
(The source bounds it to 32 entries with LRU eviction; capacity is not
modelled, only hit/miss behaviour, which is what the liveness claims are
about.) -/
abbrev ClientCache := List (ConnKey × Nat)

/-- Cache lookup. -/
def lookupCache (c : ClientCache) (k : ConnKey) : Option Nat :=
  (c.find? (fun e => e.1 = k)).map (fun e => e.2)

/-- `get_ssh_client` under `@lru_cache`: a hit returns the cached client
unconditionally (no liveness check); a miss connects a fresh client
(`freshId`) and caches it. -/
def get_ssh_client (cache : ClientCache) (k : ConnKey) (freshId : Nat) :
    Nat × ClientCache :=
  match lookupCache cache k with
  | some cid => (cid, cache)
  | none => (freshId, (k, freshId) :: cache)

/-- The `SshPath.client` property: when the instance's stored client is absent
or its transport inactive (`alive` models `transport.is_active()`), re-fetch
through `get_ssh_client`; otherwise reuse the stored client.  Returns the
client handed to the caller and the cache afterwards. -/
def sshClientProp (alive : Nat → Bool) (cache : ClientCache)
    (selfClient : Option Nat) (k : ConnKey) (freshId : Nat) : Nat × ClientCache :=
  match selfClient with
  | some c => if alive c then (c, cache) else get_ssh_client cache k freshId
  | none => get_ssh_client cache k freshId

/-! ## Path handles and `get_path_from_str` (src/datatool/tools/paths.py) -/

/-- The runtime path objects the transfer code dispatches on: `pathlib.Path`,
`cloudpathlib.CloudPath` (and its provider subclasses), `SshPath`, or any
other object (`objOther`), the variants being disjoint classes in the
source. -/
inductive PyPath where
  | localP (s : String)
  | cloudP (s : String)
  | sshP (d : SshData)
  | objOther
deriving DecidableEq, Repr

/-- `_CLOUD_PATH_REGEX.match(path)`: the three recognized cloud scheme
markers. -/
def cloudRegexMatch (s : String) : Bool :=
  strStartsWith s "s3://" || strStartsWith s "gs://" || strStartsWith s "az://"

/-- `pathlib.Path(s)` as a string: the empty string denotes the current
directory `"."`. -/
def pathOfString (s : String) : String :=
  if s = "" then "." else s

/-- `get_path_from_str`: cloud scheme → `CloudPath`; `ssh://` → `SshPath`
(whose constructor may raise); anything else → local `Path`. -/
def get_path_from_str (path : String) : Except String PyPath :=
  if cloudRegexMatch path then .ok (.cloudP path)
  else if strStartsWith path "ssh://" then (sshPathInit path none none).map .sshP
  else .ok (.localP (pathOfString path))

/-! ## The transfer engine (file_transfer_manager, transfer_strategies) -/

/-- The nine concrete `TransferStrategy` classes of
`src/datatool/files/transfer_strategies.py`. -/
inductive StratKind where
  | localToLocal | localToCloud | cloudToLocal | cloudToCloud
  | localToSsh | sshToLocal | sshToCloud | cloudToSsh | sshToSsh
deriving DecidableEq, Repr

/-- The file wrapper as the transfer engine sees it: a path handle and a
name (`File.path`, `File.name`). -/
structure File where
  path : PyPath
  name : String
deriving DecidableEq, Repr

/-- The observable side effects (I/O on the backends) a `transfer_file` call
performs, in order. -/
inductive Ev where
  /-- `target_path.parent.mkdir(parents=True, exist_ok=True)` on a local
  target. -/
  | mkdirParentsLocal (target : PyPath)
  /-- the byte-movement operation of one strategy, with the path values it
  was handed. -/
  | transferOp (k : StratKind) (src tgt : PyPath)
  /-- `source_file.path.unlink()`. -/
  | unlinkSource (p : PyPath)
  /-- `source_file.clear_content()`. -/
  | clearContent (fileName : String)
deriving DecidableEq, Repr

/-- Whether a path is a `pathlib.Path` (`isinstance(p, Path)`). -/
def isLocalPath : PyPath → Bool
  | .localP _ => true
  | _ => false

/-- The `isinstance` dispatch chain of
`FileTransferManager.transfer_file` in `src/datatool/tools/file_transfer_manager.py`:
only the four local/cloud combinations are supported, in source order. -/
def dispatchTools : PyPath → PyPath → Option StratKind
  | .localP _, .localP _ => some .localToLocal
  | .localP _, .cloudP _ => some .localToCloud
  | .cloudP _, .localP _ => some .cloudToLocal
  | .cloudP _, .cloudP _ => some .cloudToCloud
  | _, _ => none

/-- `FileTransferManager.transfer_file` of
`src/datatool/tools/file_transfer_manager.py`, as a trace of backend side
effects plus an outcome.  Log lines are not I/O on a backend and are not
recorded.  `transferRaises` says whether the dispatched byte-movement
operation itself raises; the `except` clause logs and re-raises unchanged,
so a raise surfaces as `.error`. -/
def transfer_file_tools (source target : File)
    (delete_source transferRaises : Bool) : List Ev × Except String Unit :=
  let pre := if isLocalPath target.path then [Ev.mkdirParentsLocal target.path] else []
  match dispatchTools source.path target.path with
  | none => (pre, .error "TypeError: Unsupported path types for transfer")
  | some k =>
    if transferRaises then
      (pre ++ [Ev.transferOp k source.path target.path], .error "transfer raised")
    else
      let tr := pre ++ [Ev.transferOp k source.path target.path]
      if delete_source then
        (tr ++ [Ev.unlinkSource source.path, Ev.clearContent source.name], .ok ())
      else (tr, .ok ())

/-- The three backend families of the dispatch key. -/
inductive Family where
  | localF | cloudF | sshF
deriving DecidableEq, Repr

/-- Modelled from the spec: `FileTransferManager._get_base_path_type` of
`datatool/files/file_transfer_manager.py`, which is absent from the source
tree (only its tests and the strategy classes ship).  Per the spec's
classification rule and the module's tests, a cloud-object subtype resolves
to the Cloud family (checked before Local), a local path to Local, an
`SshPath` to RemoteShell, and any other object has no family. -/
def getBasePathType : PyPath → Option Family
  | .cloudP _ => some .cloudF
  | .localP _ => some .localF
  | .sshP _ => some .sshF
  | .objOther => none

/-- Modelled from the spec: the `_strategies` dispatch table of the absent
`datatool/files/file_transfer_manager.py` — nine entries, one per ordered
pair of families, no default entry, exactly as its tests enumerate. -/
def strategyTable : List ((Family × Family) × StratKind) :=
  [ ((.localF, .localF), .localToLocal)
  , ((.localF, .cloudF), .localToCloud)
  , ((.cloudF, .localF), .cloudToLocal)
  , ((.cloudF, .cloudF), .cloudToCloud)
  , ((.localF, .sshF), .localToSsh)
  , ((.sshF, .localF), .sshToLocal)
  , ((.sshF, .cloudF), .sshToCloud)
  , ((.cloudF, .sshF), .cloudToSsh)
  , ((.sshF, .sshF), .sshToSsh) ]

/-- Lookup of the strategy registered for an ordered family pair. -/
def lookupStrategy (s t : Family) : Option StratKind :=
  (strategyTable.find? (fun e => e.1 = (s, t))).map (fun e => e.2)

/-- Modelled from the spec: `FileTransferManager.transfer_file` of the absent
`datatool/files/file_transfer_manager.py` — log intent, eagerly create the
parent directory tree of a local target, classify both paths, look the pair
up in the nine-entry table (a missing family or pair raises the
unsupported-combination TypeError), invoke the strategy once with the
original path values, then optionally delete the source and clear its cached
content; failures are logged and re-raised unchanged. -/
def transfer_file_strategies (source target : File)
    (delete_source transferRaises : Bool) : List Ev × Except String Unit :=
  let pre := if isLocalPath target.path then [Ev.mkdirParentsLocal target.path] else []
  match getBasePathType source.path, getBasePathType target.path with
  | some fs, some ft =>
    match lookupStrategy fs ft with
    | none => (pre, .error "TypeError: Unsupported path types for transfer")
    | some k =>
      if transferRaises then
        (pre ++ [Ev.transferOp k source.path target.path], .error "transfer raised")
      else
        let tr := pre ++ [Ev.transferOp k source.path target.path]
        if delete_source then
          (tr ++ [Ev.unlinkSource source.path, Ev.clearContent source.name], .ok ())
        else (tr, .ok ())
  | _, _ => (pre, .error "TypeError: Unsupported path types for transfer")

/-- Recognizer for byte-movement events in a trace. -/
def isTransferEv : Ev → Bool
  | .transferOp _ _ _ => true
  | _ => false

/-- Recognizer for source-deletion events in a trace. -/
def isUnlinkEv : Ev → Bool
  | .unlinkSource _ => true
  | _ => false

/-- Recognizer for cached-content-clearing events in a trace. -/
def isClearEv : Ev → Bool
  | .clearContent _ => true
  | _ => false

/-- Occurrence of `pat` as a contiguous run inside a character list. -/
def occursInChars (pat : List Char) : List Char → Bool
  | [] => pat.isEmpty
  | c :: rest => pat.isPrefixOf (c :: rest) || occursInChars pat rest

/-- Occurrence of `pat` as a substring of `s`. -/
def strOccursIn (pat s : String) : Bool :=
  occursInChars pat.toList s.toList

end Datatool

namespace Datatool

/-! ## Theorems -/

/-- C6: `RemotePath("ssh://user@host:2222/a/b.txt").parent` is a handle with
path `/a` and name `a`, and `RemotePath("ssh://host/").parent` has path `/`;
in both cases host, port, username, password and key path are preserved (the
records on the right carry the same `pw` / `/k.pem` auth material and the
same host, port and user as the constructed paths). -/
theorem c6_parent_name_and_root :
    Except.bind (sshPathInit "ssh://user@host:2222/a/b.txt" (some "pw") (some "/k.pem"))
        sshParent
      = .ok ⟨"host", 2222, some "user", "/a", some "pw", some "/k.pem"⟩ ∧
    sshName ⟨"host", 2222, some "user", "/a", some "pw", some "/k.pem"⟩ = "a" ∧
    Except.bind (sshPathInit "ssh://host/" (some "pw") (some "/k.pem")) sshParent
      = .ok ⟨"host", 22, none, "/", some "pw", some "/k.pem"⟩ := by
  refine ⟨?_, ?_, ?_⟩ <;> rfl

/-- C3: evaluation of the code at the failing input.  `write_bytes` calls
`self.mkdir(parents=True)` on the file's own path, so on an empty remote
filesystem the mkdir phase creates `/test_dir/file.bin` itself as a
directory (second conjunct: the creation list contains the final file
segment, not only the proper-prefix parent `/test_dir`), and the subsequent
binary-mode open of the file then fails because a directory occupies its
path (third conjunct). -/
theorem c3_write_bytes_creates_final_segment :
    sshMkdir ([] : RFs) "/test_dir/file.bin" true true
      = .ok ([⟨"/test_dir/file.bin", true⟩, ⟨"/test_dir", true⟩],
             ["/test_dir", "/test_dir/file.bin"]) ∧
    sshWriteBytes ([] : RFs) "/test_dir/file.bin" = .error "open wb: path is a directory" := by
  refine ⟨?_, ?_⟩ <;> rfl

/-- C4: evaluation of the code at the failing input.  With the cache holding
client 7 for the connection tuple and client 7's transport inactive, the
next access returns client 7 again and leaves the cache unchanged — the
`lru_cache` in `get_ssh_client` performs no liveness check, so the dead
session is neither replaced nor evicted, whether the instance re-queries
because its stored client is dead (first conjunct) or because it has no
stored client yet (second conjunct). -/
theorem c4_dead_session_returned_again :
    sshClientProp (fun _ => false) [(⟨"host", 22, some "user", none, none⟩, 7)]
        (some 7) ⟨"host", 22, some "user", none, none⟩ 99
      = (7, [(⟨"host", 22, some "user", none, none⟩, 7)]) ∧
    sshClientProp (fun _ => false) [(⟨"host", 22, some "user", none, none⟩, 7)]
        none ⟨"host", 22, some "user", none, none⟩ 99
      = (7, [(⟨"host", 22, some "user", none, none⟩, 7)]) := by
  refine ⟨?_, ?_⟩ <;> rfl

/-- C10: the `exist_ok` argument of `SshPath.mkdir` is never consulted — for
every filesystem, path and `parents` value the result is identical under
both `exist_ok` values, and a non-recursive mkdir on an existing path raises
the backend's error even with `exist_ok=True`. -/
theorem c10_exist_ok_never_consulted :
    (∀ (fs : RFs) (p : String) (parents e₁ e₂ : Bool),
      sshMkdir fs p parents e₁ = sshMkdir fs p parents e₂) ∧
    (∀ (fs : RFs) (p : String), rexists fs p = true →
      sshMkdir fs p false true = .error "mkdir failure") := by
  refine ⟨fun _ _ _ _ _ => rfl, fun fs p h => ?_⟩
  simp [sshMkdir, sftpMkdir, h, Except.map]

/-- C10 witness: concrete instance of both conjuncts at a one-directory
filesystem. -/
theorem c10_witness :
    sshMkdir [⟨"/d", true⟩] "/d" true true = sshMkdir [⟨"/d", true⟩] "/d" true false ∧
    sshMkdir [⟨"/d", true⟩] "/d" false true = .error "mkdir failure" :=
  ⟨c10_exist_ok_never_consulted.1 [⟨"/d", true⟩] "/d" true true false,
   c10_exist_ok_never_consulted.2 [⟨"/d", true⟩] "/d" (by rfl)⟩

/-- C2 counterexample: with a RemoteShell source and a Local target — a pair
with no dispatch-table entry — `transfer_file` performs the eager
parent-directory creation for the local target (an I/O operation, the first
trace event) before raising the unsupported-combination TypeError, refuting
"no directory creation occurs on any backend before the error is raised". -/
theorem c2_mkdir_precedes_type_error :
    transfer_file_tools ⟨.sshP ⟨"host", 22, none, "/f", none, none⟩, "f"⟩
        ⟨.localP "/out/sub/t", "t"⟩ false false
      = ([Ev.mkdirParentsLocal (.localP "/out/sub/t")],
         .error "TypeError: Unsupported path types for transfer") := by
  rfl

/-- C2 (amended): for every pair with no dispatch-table entry,
`transfer_file` raises the TypeError having performed no byte movement, no
deletion and no cache clearing — the only I/O that may precede the error is
the eager parent-directory creation done for a Local target. -/
theorem c2_unsupported_raises_before_transfer_io (source target : File)
    (d tr : Bool) (h : dispatchTools source.path target.path = none) :
    transfer_file_tools source target d tr
      = ((if isLocalPath target.path then [Ev.mkdirParentsLocal target.path] else []),
         .error "TypeError: Unsupported path types for transfer") := by
  simp [transfer_file_tools, h]

/-- C2 witness: the amended statement at a concrete unsupported pair with a
cloud target (no local-target directory creation, so no I/O at all). -/
theorem c2_witness :
    transfer_file_tools ⟨.sshP ⟨"host", 22, none, "/f", none, none⟩, "f"⟩
        ⟨.cloudP "s3://b/t", "t"⟩ true false
      = ((if isLocalPath (PyPath.cloudP "s3://b/t")
            then [Ev.mkdirParentsLocal (.cloudP "s3://b/t")] else []),
         .error "TypeError: Unsupported path types for transfer") :=
  c2_unsupported_raises_before_transfer_io
    ⟨.sshP ⟨"host", 22, none, "/f", none, none⟩, "f"⟩ ⟨.cloudP "s3://b/t", "t"⟩
    true false rfl

/-- C5: for every supported pair, (a) a successful transfer with
`delete_source=True` produces exactly the trace "optional local-target mkdir,
one transfer, one unlink of the source path, one clearing of the source's
cached content", in that order; (b) when the transfer raises, the call
re-raises and the trace contains no unlink and no clear event; (c) with
`delete_source=False` no unlink event occurs. -/
theorem c5_delete_source_semantics (source target : File) (k : StratKind)
    (h : dispatchTools source.path target.path = some k) :
    (transfer_file_tools source target true false
      = ((if isLocalPath target.path then [Ev.mkdirParentsLocal target.path] else [])
          ++ [Ev.transferOp k source.path target.path,
              Ev.unlinkSource source.path, Ev.clearContent source.name], .ok ())) ∧
    (∀ d, (transfer_file_tools source target d true).2 = .error "transfer raised" ∧
      (transfer_file_tools source target d true).1.filter isUnlinkEv = [] ∧
      (transfer_file_tools source target d true).1.filter isClearEv = []) ∧
    (transfer_file_tools source target false false).1.filter isUnlinkEv = [] := by
  refine ⟨?_, fun d => ⟨?_, ?_, ?_⟩, ?_⟩ <;>
    simp [transfer_file_tools, h, isUnlinkEv, isClearEv, List.filter_append]

/-- C5 witness: the three conjuncts at a concrete local-to-local transfer. -/
theorem c5_witness :
    (transfer_file_tools ⟨.localP "a.txt", "a.txt"⟩ ⟨.localP "out/a.txt", "a.txt"⟩ true false
      = ((if isLocalPath (PyPath.localP "out/a.txt")
            then [Ev.mkdirParentsLocal (.localP "out/a.txt")] else [])
          ++ [Ev.transferOp .localToLocal (.localP "a.txt") (.localP "out/a.txt"),
              Ev.unlinkSource (.localP "a.txt"), Ev.clearContent "a.txt"], .ok ())) ∧
    (∀ d, (transfer_file_tools ⟨.localP "a.txt", "a.txt"⟩ ⟨.localP "out/a.txt", "a.txt"⟩ d true).2
        = .error "transfer raised" ∧
      (transfer_file_tools ⟨.localP "a.txt", "a.txt"⟩ ⟨.localP "out/a.txt", "a.txt"⟩ d true).1.filter
          isUnlinkEv = [] ∧
      (transfer_file_tools ⟨.localP "a.txt", "a.txt"⟩ ⟨.localP "out/a.txt", "a.txt"⟩ d true).1.filter
          isClearEv = []) ∧
    (transfer_file_tools ⟨.localP "a.txt", "a.txt"⟩ ⟨.localP "out/a.txt", "a.txt"⟩ false false).1.filter
        isUnlinkEv = [] :=
  c5_delete_source_semantics ⟨.localP "a.txt", "a.txt"⟩ ⟨.localP "out/a.txt", "a.txt"⟩
    .localToLocal rfl

/-- Helper: when the parsed hostname of the URL is empty, `SshPath.__init__`
raises (either the port `ValueError` or the hostname check). -/
theorem sshPathInit_empty_hostname (url : String) (p k : Option String)
    (h : urlHostname (parseUrl url) = "") :
    ∃ e, sshPathInit url p k = .error e := by
  by_cases hs : (parseUrl url).scheme ≠ "ssh"
  · exact ⟨"Invalid SSH URL scheme: " ++ (parseUrl url).scheme, by simp [sshPathInit, hs]⟩
  · rcases hp : urlPort (parseUrl url) with e | portOpt
    · exact ⟨e, by simp [sshPathInit, hs, hp]⟩
    · exact ⟨"Hostname is required for SSH path", by simp [sshPathInit, hs, hp, h]⟩

/-- C9: `get_path_from_str` is a pure function classifying its input by
scheme marker: a cloud scheme yields the CloudObject handle on the unchanged
string; an `ssh://` string is delegated to the RemoteShell constructor (so
any success is a RemoteShell handle), which raises when the parsed hostname
is empty; every other string yields the Local handle, the empty string
becoming the current-directory sentinel `"."`. -/
theorem c9_path_resolution (s : String) :
    (cloudRegexMatch s = true → get_path_from_str s = .ok (.cloudP s)) ∧
    (cloudRegexMatch s = false → strStartsWith s "ssh://" = true →
      get_path_from_str s = (sshPathInit s none none).map PyPath.sshP ∧
      (urlHostname (parseUrl s) = "" → ∃ e, get_path_from_str s = .error e)) ∧
    (cloudRegexMatch s = false → strStartsWith s "ssh://" = false →
      get_path_from_str s = .ok (.localP (if s = "" then "." else s))) := by
  refine ⟨fun h₁ => ?_, fun h₁ h₂ => ⟨?_, fun hh => ?_⟩, fun h₁ h₂ => ?_⟩
  · simp [get_path_from_str, h₁]
  · simp [get_path_from_str, h₁, h₂]
  · obtain ⟨e, he⟩ := sshPathInit_empty_hostname s none none hh
    exact ⟨e, by simp [get_path_from_str, h₁, h₂, he, Except.map]⟩
  · simp [get_path_from_str, h₁, h₂, pathOfString]

/-- C9 witness: the empty string resolves to the Local current-directory
sentinel, and an `ssh://` string with an empty hostname delegates to the
RemoteShell constructor, which errors there. -/
theorem c9_witness :
    get_path_from_str "" = .ok (.localP (if "" = "" then "." else "")) ∧
    get_path_from_str "ssh:///path" = (sshPathInit "ssh:///path" none none).map PyPath.sshP ∧
    (urlHostname (parseUrl "ssh:///path") = "" →
      ∃ e, get_path_from_str "ssh:///path" = .error e) :=
  ⟨(c9_path_resolution "").2.2 rfl rfl, (c9_path_resolution "ssh:///path").2.1 rfl rfl⟩

/-- C8 counterexample: with password equal to the hostname (`"host"`), the
password substring does occur in the rendered string — the constructed path
stores that password (first conjunct) and its `__str__` output contains it
(second conjunct) — refuting "the password substring never occurs in either
output" as universally stated. -/
theorem c8_password_substring_occurs :
    sshPathInit "ssh://host/p" (some "host") none
      = .ok ⟨"host", 22, none, "/p", some "host", none⟩ ∧
    strOccursIn "host" (sshStr ⟨"host", 22, none, "/p", some "host", none⟩) = true := by
  refine ⟨?_, ?_⟩ <;> rfl

/-- C8 (amended): `__str__` and `__repr__` never read the password — for
every URL and key path, any two passwords (including none) produce identical
outputs; hence the password can appear in an output only by coinciding with
a substring of the password-free rendering (host, user, port, path or key
reference), as in the counterexample. -/
theorem c8_str_repr_password_independent (url : String) (k p₁ p₂ : Option String) :
    (sshPathInit url p₁ k).map sshStr = (sshPathInit url p₂ k).map sshStr ∧
    (sshPathInit url p₁ k).map sshRepr = (sshPathInit url p₂ k).map sshRepr := by
  by_cases hs : (parseUrl url).scheme ≠ "ssh"
  · constructor <;> simp [sshPathInit, hs]
  · rcases hp : urlPort (parseUrl url) with e | portOpt
    · constructor <;> simp [sshPathInit, hs, hp]
    · by_cases hh : urlHostname (parseUrl url) = ""
      · constructor <;> simp [sshPathInit, hs, hp, hh]
      · constructor <;> simp [sshPathInit, hs, hp, hh, sshStr, sshRepr, Except.map]

/-- Helper: for every classified source/target pair and registered strategy,
the trace of the strategy-dispatch `transfer_file` contains exactly one
byte-movement event, carrying that strategy and the unmodified path
values. -/
theorem strategies_single_transfer (source target : File) (fs ft : Family)
    (k : StratKind) (d tr : Bool) (hs : getBasePathType source.path = some fs)
    (ht : getBasePathType target.path = some ft)
    (hk : lookupStrategy fs ft = some k) :
    (transfer_file_strategies source target d tr).1.filter isTransferEv
      = [Ev.transferOp k source.path target.path] := by
  cases d <;> cases tr <;>
    simp [transfer_file_strategies, hs, ht, hk, isTransferEv, List.filter_append,
      apply_ite (List.filter isTransferEv)]

/-- C1: for every source/target pair classified into any of the nine
(family, family) combinations, the strategy-dispatch `transfer_file` looks
up a registered strategy for that ordered pair and its trace contains
exactly one byte-movement event — the registered strategy's transfer,
applied to the original, unmodified source and target path values. -/
theorem c1_registered_strategy_invoked_once (source target : File)
    (fs ft : Family) (d tr : Bool) (hs : getBasePathType source.path = some fs)
    (ht : getBasePathType target.path = some ft) :
    ∃ k, lookupStrategy fs ft = some k ∧
      (transfer_file_strategies source target d tr).1.filter isTransferEv
        = [Ev.transferOp k source.path target.path] := by
  cases fs <;> cases ft <;>
    exact ⟨_, rfl, strategies_single_transfer source target _ _ _ d tr hs ht rfl⟩

/-- C1 witness: concrete Local source, RemoteShell target — the registered
Local-to-RemoteShell strategy fires exactly once with the given paths. -/
theorem c1_witness :
    ∃ k, lookupStrategy .localF .sshF = some k ∧
      (transfer_file_strategies ⟨.localP "a.txt", "a.txt"⟩
          ⟨.sshP ⟨"host", 22, none, "/t", none, none⟩, "t"⟩ false false).1.filter
        isTransferEv
        = [Ev.transferOp k (.localP "a.txt") (.sshP ⟨"host", 22, none, "/t", none, none⟩)] :=
  c1_registered_strategy_invoked_once ⟨.localP "a.txt", "a.txt"⟩
    ⟨.sshP ⟨"host", 22, none, "/t", none, none⟩, "t"⟩ .localF .sshF false false rfl rfl

/-- Helper: a path existing in the filesystem still exists after a node is
added. -/
theorem rexists_cons_of (n : RNode) (fs : RFs) (p : String)
    (hp : rexists fs p = true) : rexists (n :: fs) p = true := by
  simp only [rexists, List.any_cons, Bool.or_eq_true]
  exact Or.inr hp

/-- Helper: existing paths survive a run of the recursive-mkdir loop. -/
theorem mkdirLoop_preserves : ∀ (parts : List String) (fs : RFs) (current : String)
    (created : List String) (fs' : RFs) (c : List String),
    mkdirLoop fs parts current created = .ok (fs', c) →
    ∀ p, rexists fs p = true → rexists fs' p = true := by
  intro parts
  induction parts with
  | nil =>
    intro fs current created fs' c h p hp
    simp only [mkdirLoop, Except.ok.injEq, Prod.mk.injEq] at h
    exact h.1 ▸ hp
  | cons part rest ih =>
    intro fs current created fs' c h p hp
    simp only [mkdirLoop] at h
    by_cases hpart : part = ""
    · rw [if_pos hpart] at h
      exact ih _ _ _ _ _ h p hp
    · rw [if_neg hpart] at h
      by_cases hex : rexists fs (current ++ "/" ++ part) = true
      · rw [if_pos hex] at h
        exact ih _ _ _ _ _ h p hp
      · rw [if_neg hex] at h
        simp only [sftpMkdir, hex, if_false, Bool.false_eq_true] at h
        exact ih _ _ _ _ _ h p (rexists_cons_of _ _ _ hp)

/-- Helper: re-running the recursive-mkdir loop on its own result changes
nothing and creates nothing. -/
theorem mkdirLoop_idem : ∀ (parts : List String) (fs : RFs) (current : String)
    (created : List String) (fs' : RFs) (c : List String),
    mkdirLoop fs parts current created = .ok (fs', c) →
    mkdirLoop fs' parts current [] = .ok (fs', []) := by
  intro parts
  induction parts with
  | nil =>
    intro fs current created fs' c h
    simp only [mkdirLoop, Except.ok.injEq, Prod.mk.injEq] at h
    simp [mkdirLoop, h.1]
  | cons part rest ih =>
    intro fs current created fs' c h
    simp only [mkdirLoop] at h ⊢
    by_cases hpart : part = ""
    · rw [if_pos hpart] at h ⊢
      exact ih _ _ _ _ _ h
    · rw [if_neg hpart] at h ⊢
      by_cases hex : rexists fs (current ++ "/" ++ part) = true
      · rw [if_pos hex] at h
        have hex' : rexists fs' (current ++ "/" ++ part) = true :=
          mkdirLoop_preserves rest fs _ created fs' c h _ hex
        rw [if_pos hex']
        exact ih _ _ _ _ _ h
      · rw [if_neg hex] at h
        simp only [sftpMkdir, hex, if_false, Bool.false_eq_true] at h
        have hex' : rexists fs' (current ++ "/" ++ part) = true :=
          mkdirLoop_preserves rest _ _ _ fs' c h _ (by simp [rexists, List.any_cons])
        rw [if_pos hex']
        exact ih _ _ _ _ _ h

/-- C7: recursive directory creation is idempotent — whenever
`mkdir(parents=True)` ran once (producing filesystem `fs₁`), running it
again on any `exist_ok` value succeeds, changes nothing and creates no
directory (every prefix is stat'ed and found present, so nothing is
re-created and no already-exists error can arise). -/
theorem c7_recursive_mkdir_idempotent (fs : RFs) (p : String) (fs₁ : RFs)
    (created : List String) (e₁ e₂ : Bool)
    (h : sshMkdir fs p true e₁ = .ok (fs₁, created)) :
    sshMkdir fs₁ p true e₂ = .ok (fs₁, []) := by
  simp only [sshMkdir, Bool.not_true] at h ⊢
  rw [if_neg (by simp)] at h ⊢
  exact mkdirLoop_idem _ _ _ _ _ _ h

/-- C7 witness: creating `/a/b` recursively on an empty filesystem and then
running the same recursive mkdir again: no error, no new creation. -/
theorem c7_witness :
    sshMkdir [⟨"/a/b", true⟩, ⟨"/a", true⟩] "/a/b" true false
      = .ok ([⟨"/a/b", true⟩, ⟨"/a", true⟩], []) :=
  c7_recursive_mkdir_idempotent [] "/a/b" [⟨"/a/b", true⟩, ⟨"/a", true⟩]
    ["/a", "/a/b"] true false rfl

end Datatool
